import Mathlib

/-!
Verification development for the InstructMesh-PhysiOpt-Integration backend.

The Python modules under src/backend are shallowly embedded as pure Lean
functions.  Mutable module-level globals (the segmentation session, the
pipeline cache) become explicit state values threaded through the
functions; filesystem contents become explicit data; calls into the
external ML libraries (Point-SAM prediction, TRELLIS pipelines, the
physics optimizer) become oracle parameters describing the outcome of the
call; observable side effects are recorded in explicit event traces.
-/

namespace Backend

/-! ## Basic geometry values (exact rationals stand in for floats) -/

/-- A 3D point or an RGB colour triple. -/
structure Vec3 where
  x : ℚ
  y : ℚ
  z : ℚ
deriving DecidableEq

/-- Componentwise subtraction, used to shift a click into model frame. -/
def vsub (a b : Vec3) : Vec3 := ⟨a.x - b.x, a.y - b.y, a.z - b.z⟩

/-- Componentwise division by a scalar, used for normalisation. -/
def vdivs (a : Vec3) (s : ℚ) : Vec3 := ⟨a.x / s, a.y / s, a.z / s⟩

/-- Denormalisation `p * scale + shift` as in the source. -/
def vscaleAdd (p : Vec3) (s : ℚ) (sh : Vec3) : Vec3 :=
  ⟨p.x * s + sh.x, p.y * s + sh.y, p.z * s + sh.z⟩

/-- Componentwise sum of a list of points. -/
def vsum (l : List Vec3) : Vec3 :=
  l.foldl (fun a p => ⟨a.x + p.x, a.y + p.y, a.z + p.z⟩) ⟨0, 0, 0⟩

/-- Mean of a point cloud, as in `pc_xyz[0].mean(dim=0)`. -/
def vmean (l : List Vec3) : Vec3 :=
  vdivs (vsum l) (l.length : ℚ)

/-- Flatten a list of triples for the Three.js payload
(`pc_xyz_orig.flatten().tolist()`). -/
def flatten3 (l : List Vec3) : List ℚ :=
  l.foldr (fun p acc => p.x :: p.y :: p.z :: acc) []

/-- Truncation toward zero, the behaviour of a numpy integer cast. -/
def truncToInt (q : ℚ) : Int := if q < 0 then -((-q).floor) else q.floor

/-! ## Segmentation session state (src/backend/segment.py)

The module-global `current_ply_data` dict becomes `Option SessionData`.
-/

/-- The `current_ply_data` dict of segment.py. -/
structure SessionData where
  pc_xyz : List Vec3
  pc_rgb : List Vec3
  shift : Vec3
  scale : ℚ
  model_id : String
  glb_path : String
  prompts : List Vec3
  labels : List Int
  prompt_mask : Option (List ℚ)
deriving DecidableEq

/-- The JSON body of a click request: optional x/y/z position (all three
present or treated as absent) and an optional label defaulting to 1. -/
structure ClickPoint where
  pos : Option Vec3
  prompt_label : Option Int
deriving DecidableEq

/-- The arguments handed to `point_sam_model.predict_masks`. -/
structure PredictIn where
  pc_xyz : List Vec3
  pc_rgb : List Vec3
  prompt_points : List Vec3
  prompt_labels : List Int
  prompt_mask : Option (List ℚ)
  is_first : Bool
deriving DecidableEq

/-- The Point-SAM network as an oracle: a list of candidate masks (raw
scores per point) each paired with its predicted IOU. -/
def PredictFn : Type := PredictIn → List (List ℚ × ℚ)

/-- `predict_masks` is called with the full accumulated prompt history and
the current mask as refinement seed (`prompt_mask is None` as the final
flag). -/
def predictInputOf (s : SessionData) : PredictIn :=
  { pc_xyz := s.pc_xyz, pc_rgb := s.pc_rgb,
    prompt_points := s.prompts, prompt_labels := s.labels,
    prompt_mask := s.prompt_mask, is_first := s.prompt_mask.isNone }

/-- The prompt point derived from a click: the normalised click position
when x/y/z are supplied, else the centroid of the point cloud. -/
def promptPointOf (s : SessionData) (c : ClickPoint) : Vec3 :=
  match c.pos with
  | some p => vdivs (vsub p s.shift) s.scale
  | none => vmean s.pc_xyz

/-- Lines 234-236 of segment.py: append the prompt point and its label
(the label defaults to 1, positive) to the session. -/
def appendClick (s : SessionData) (c : ClickPoint) : SessionData :=
  { s with prompts := s.prompts ++ [promptPointOf s c],
           labels := s.labels ++ [c.prompt_label.getD 1] }

/-- `torch.argmax(iou_preds[0])` followed by indexing: the first candidate
whose IOU is maximal. -/
def bestPred : List ℚ × ℚ → List (List ℚ × ℚ) → List ℚ × ℚ
  | best, [] => best
  | best, p :: rest => if best.2 < p.2 then bestPred p rest else bestPred best rest

/-- Indices of the points selected by a mask (`torch.where(mask > 0)`). -/
def positiveIndices (m : List ℚ) : List Nat :=
  (m.enum.filter (fun e => decide (0 < e.2))).map Prod.fst

/-- The `segment` dict returned on success. -/
structure Segment where
  segment_id : Nat
  point_indices : List Nat
  num_points : Nat
  iou_score : ℚ
  points : List Vec3
  colors : List (Int × Int × Int)
  model_id : String
deriving DecidableEq

/-- The successful payload of `segment_with_click`. -/
structure SegResult where
  segment : Segment
  mask : List Bool
  total_points : Nat
  model_id : String
deriving DecidableEq

/-- `segment_with_click` of segment.py.  `avail` is the module flag
`POINT_SAM_AVAILABLE`, `model` the loaded network, `st` the global
`current_ply_data`.  Returns the new global state and either the result
payload or the error string of the `(None, error)` return. -/
def segment_with_click (avail : Bool) (model : PredictFn) (st : Option SessionData)
    (c : ClickPoint) : Option SessionData × Except String SegResult :=
  if avail = false then (st, .error "Point-SAM not available")
  else
    match st with
    | none => (none, .error "No 3D model loaded")
    | some s =>
      let s1 := appendClick s c
      match model (predictInputOf s1) with
      | [] => (some s1, .error "argmax on an empty tensor")
      | p :: rest =>
        let best := bestPred p rest
        let s2 := { s1 with prompt_mask := some best.1 }
        let point_indices := positiveIndices best.1
        if point_indices.length ≤ 10 then
          (some s2, .error ("Segment too small: only " ++ Nat.repr point_indices.length ++ " points"))
        else
          let segment_points_orig :=
            point_indices.map (fun i => vscaleAdd (s.pc_xyz.getD i ⟨0, 0, 0⟩) s.scale s.shift)
          let segment_colors_255 :=
            point_indices.map (fun i =>
              let col := s.pc_rgb.getD i ⟨0, 0, 0⟩
              (truncToInt (col.x * 255) % 256, truncToInt (col.y * 255) % 256,
               truncToInt (col.z * 255) % 256))
          (some s2, .ok
            { segment :=
                { segment_id := 0, point_indices := point_indices,
                  num_points := point_indices.length, iou_score := best.2,
                  points := segment_points_orig, colors := segment_colors_255,
                  model_id := s.model_id },
              mask := best.1.map (fun v => decide (0 < v)),
              total_points := s.pc_xyz.length, model_id := s.model_id })

/-- The result of `load_glb_for_point_sam`: normalised points and colours
together with the shift/scale used, or `none` on failure. -/
structure GlbData where
  points_norm : List Vec3
  colors_norm : List Vec3
  shift : Vec3
  scale : ℚ
deriving DecidableEq

/-- `load_model_for_segmentation` of segment.py.  `findGlb` is the result
of the filename search (canonical names, then glob), `loadGlb` the GLB
loader.  On success the global session is replaced wholesale; on failure
it is left untouched. -/
def load_model_for_segmentation (avail : Bool) (model_dir : String)
    (findGlb : Option String) (loadGlb : String → Option GlbData)
    (st : Option SessionData) : Option SessionData × Except String SessionData :=
  if avail = false then (st, .error "Point-SAM not available")
  else
    match findGlb with
    | none => (st, .error ("GLB file not found for model " ++ model_dir))
    | some gp =>
      match loadGlb gp with
      | none => (st, .error "Failed to load GLB data")
      | some g =>
        let d : SessionData :=
          { pc_xyz := g.points_norm, pc_rgb := g.colors_norm,
            shift := g.shift, scale := g.scale,
            model_id := model_dir, glb_path := gp,
            prompts := [], labels := [], prompt_mask := none }
        (some d, .ok d)

/-- `clear_prompts` of segment.py: reset prompts, labels and mask, keep
the loaded geometry and model identity. -/
def clear_prompts : Option SessionData → Option SessionData
  | none => none
  | some s => some { s with prompts := [], labels := [], prompt_mask := none }

/-- The payload of `get_pointcloud_data`. -/
structure PointcloudData where
  xyz : List ℚ
  rgb : List ℚ
  num_points : Nat
  model_id : String
deriving DecidableEq

/-- `get_pointcloud_data` of segment.py: denormalise and flatten the
loaded cloud, or report that none is loaded. -/
def get_pointcloud_data : Option SessionData → Except String PointcloudData
  | none => .error "No 3D model loaded"
  | some s =>
    let orig := s.pc_xyz.map (fun p => vscaleAdd p s.scale s.shift)
    .ok { xyz := flatten3 orig, rgb := flatten3 s.pc_rgb,
          num_points := orig.length, model_id := s.model_id }

/-- Session states reachable through the segmentation operations, from the
initial empty module state. -/
inductive Reachable (avail : Bool) : Option SessionData → Prop
  | init : Reachable avail none
  | load (st : Option SessionData) (model_dir : String) (findGlb : Option String)
      (loadGlb : String → Option GlbData) : Reachable avail st →
      Reachable avail (load_model_for_segmentation avail model_dir findGlb loadGlb st).1
  | clear (st : Option SessionData) : Reachable avail st →
      Reachable avail (clear_prompts st)
  | click (st : Option SessionData) (model : PredictFn) (c : ClickPoint) :
      Reachable avail st → Reachable avail (segment_with_click avail model st c).1

/-! ## Pipeline cache (src/backend/generate.py)

The module globals `_text_pipeline` and `_image_pipeline` become an
explicit `PipeCache` value; a loaded instance is identified by the value
of a construction counter, so that distinct loads are distinct instances.
Side effects are recorded as `PipeEvent`s.
-/

/-- The two pipeline kinds. -/
inductive PipeKind
  | text
  | image
deriving DecidableEq

/-- The pipeline cache: at most one instance per kind, plus the counter
feeding fresh instance identities. -/
structure PipeCache where
  text_pipeline : Option Nat
  image_pipeline : Option Nat
  next_id : Nat
deriving DecidableEq

/-- Observable pipeline-cache effects. -/
inductive PipeEvent
  | constructed (k : PipeKind) (i : Nat)
  | movedToCuda (k : PipeKind) (i : Nat)
  | movedToCpu (k : PipeKind)
  | moveToCpuFailed (k : PipeKind)
  | cudaCacheCleared
deriving DecidableEq

/-- `load_text_pipeline`: return the cached instance, constructing it (and
placing it on the accelerator when one is available) only when absent. -/
def load_text_pipeline (cuda : Bool) (c : PipeCache) : Nat × PipeCache × List PipeEvent :=
  match c.text_pipeline with
  | some i => (i, c, [])
  | none =>
    let i := c.next_id
    (i, { c with text_pipeline := some i, next_id := c.next_id + 1 },
     PipeEvent.constructed PipeKind.text i ::
       (if cuda then [PipeEvent.movedToCuda PipeKind.text i] else []))

/-- `load_image_pipeline`: as `load_text_pipeline` for the image kind. -/
def load_image_pipeline (cuda : Bool) (c : PipeCache) : Nat × PipeCache × List PipeEvent :=
  match c.image_pipeline with
  | some i => (i, c, [])
  | none =>
    let i := c.next_id
    (i, { c with image_pipeline := some i, next_id := c.next_id + 1 },
     PipeEvent.constructed PipeKind.image i ::
       (if cuda then [PipeEvent.movedToCuda PipeKind.image i] else []))

/-- The `acquire(kind)` operation of the spec, dispatching to the two
loaders of generate.py. -/
def acquire (k : PipeKind) (cuda : Bool) (c : PipeCache) : Nat × PipeCache × List PipeEvent :=
  match k with
  | PipeKind.text => load_text_pipeline cuda c
  | PipeKind.image => load_image_pipeline cuda c

/-- `clear_pipeline_cache` (the `release_all` of the spec): when an
accelerator is present, move each loaded instance to the CPU (a failure is
logged and the instance is dropped anyway), drop both references, then
clear the accelerator cache.  `textMoveOk`/`imageMoveOk` are oracles for
whether the two `.cpu()` calls succeed. -/
def clear_pipeline_cache (cuda textMoveOk imageMoveOk : Bool) (c : PipeCache) :
    PipeCache × List PipeEvent :=
  if cuda then
    let e1 : List PipeEvent :=
      match c.text_pipeline with
      | some _ => [if textMoveOk then PipeEvent.movedToCpu PipeKind.text
                   else PipeEvent.moveToCpuFailed PipeKind.text]
      | none => []
    let e2 : List PipeEvent :=
      match c.image_pipeline with
      | some _ => [if imageMoveOk then PipeEvent.movedToCpu PipeKind.image
                   else PipeEvent.moveToCpuFailed PipeKind.image]
      | none => []
    ({ c with text_pipeline := none, image_pipeline := none },
     e1 ++ e2 ++ [PipeEvent.cudaCacheCleared])
  else (c, [])

/-! ## Generation stage (src/backend/generate.py, `sample` and
`generate_3d_from_image`) -/

/-- Oracles for the external calls made during generation: whether
`pipeline.run` succeeds, and whether GLB export succeeds for each sample
index (the only step wrapped in its own try/except). -/
structure GenOracle where
  pipelineRunOk : Bool
  pipelineRunErr : String
  glbExportOk : Nat → Bool

/-- The Python `f"{i:02d}"` format. -/
def fmtSampleIdx (i : Nat) : String :=
  if i < 10 then "0" ++ Nat.repr i else Nat.repr i

/-- The `sample_files` dict built for sample `i` of `sample`, in insertion
order.  The GLB entry is present exactly when its export succeeded. -/
def sampleFiles (out_folder : String) (g : GenOracle)
    (mesh rf no_slat save_video : Bool) (i : Nat) : List (String × String) :=
  (if save_video then [("gaussian_video", out_folder ++ "/sample_gs_" ++ fmtSampleIdx i ++ ".mp4")] else [])
  ++ (if rf then
        (if save_video then [("radiance_field_video", out_folder ++ "/sample_rf_" ++ fmtSampleIdx i ++ ".mp4")] else [])
      else [])
  ++ (if mesh then
        (if save_video then [("mesh_video", out_folder ++ "/sample_mesh_" ++ fmtSampleIdx i ++ ".mp4")] else [])
        ++ [("mesh_obj", out_folder ++ "/sample_" ++ fmtSampleIdx i ++ ".obj")]
        ++ (if g.glbExportOk i then [("mesh_glb", out_folder ++ "/sample_" ++ fmtSampleIdx i ++ ".glb")] else [])
      else [])
  ++ [("gaussian_ply", out_folder ++ "/sample_" ++ fmtSampleIdx i ++ ".ply")]
  ++ (if no_slat = false then [("slat", out_folder ++ "/slat_" ++ fmtSampleIdx i ++ ".pt")] else [])

/-- The dictionary returned by `sample`. -/
structure SampleOut where
  output_folder : String
  samples : List (String × List (String × String))
  n_samples : Nat
  seed : Int
  has_text : Bool
  has_image : Bool
deriving DecidableEq

/-- `sample` of generate.py: select and acquire the pipeline (image wins
when an image is given), run it, and assemble the per-sample artifact
bundles.  A pipeline failure propagates as an exception (`.error`). -/
def sample (cuda : Bool) (cache : PipeCache) (g : GenOracle) (out_folder : String)
    (text image : Option String) (seed : Int) (mesh rf no_slat save_video : Bool)
    (n_samples : Nat) : Except String SampleOut × PipeCache × List PipeEvent :=
  let acq := if image.isSome then load_image_pipeline cuda cache else load_text_pipeline cuda cache
  if g.pipelineRunOk = false then (.error g.pipelineRunErr, acq.2.1, acq.2.2)
  else
    (.ok { output_folder := out_folder,
           samples := (List.range n_samples).map (fun i =>
             ("sample_" ++ fmtSampleIdx i, sampleFiles out_folder g mesh rf no_slat save_video i)),
           n_samples := n_samples, seed := seed,
           has_text := text.isSome, has_image := image.isSome },
     acq.2.1, acq.2.2)

/-- The dictionary returned by `generate_3d_from_image`. -/
structure GenResult where
  success : Bool
  error : Option String
  output_folder : String
  samples : List (String × List (String × String))
  glb_path : Option String
  obj_path : Option String
  ply_path : Option String
  slat_path : Option String
deriving DecidableEq

/-- `generate_3d_from_image` of generate.py: run `sample` with mesh on,
radiance fields off, SLAT always on; on success pull the first sample
paths out of the bundle; catch any exception into a failure dict. -/
def generate_3d_from_image (cuda : Bool) (cache : PipeCache) (g : GenOracle)
    (image_path output_folder : String) (seed : Int) (num_samples : Nat)
    (save_video : Bool) : GenResult × PipeCache × List PipeEvent :=
  match sample cuda cache g output_folder none (some image_path) seed true false false save_video num_samples with
  | (.error e, c1, evs) =>
    ({ success := false, error := some e, output_folder := output_folder,
       samples := [], glb_path := none, obj_path := none, ply_path := none,
       slat_path := none }, c1, evs)
  | (.ok r, c1, evs) =>
    if 0 < num_samples ∧ (r.samples.lookup "sample_00").isSome then
      let fs := (r.samples.lookup "sample_00").getD []
      ({ success := true, error := none, output_folder := r.output_folder,
         samples := r.samples, glb_path := fs.lookup "mesh_glb",
         obj_path := fs.lookup "mesh_obj", ply_path := fs.lookup "gaussian_ply",
         slat_path := fs.lookup "slat" }, c1, evs)
    else
      ({ success := false, error := some "No samples generated",
         output_folder := r.output_folder, samples := r.samples,
         glb_path := none, obj_path := none, ply_path := none,
         slat_path := none }, c1, evs)

/-! ## URL mapping (src/backend/app.py, `get_relative_url`)

Paths are modelled as their `pathlib` part lists; `FILES_DIR` is the part
list `files_dir`.  The absent / empty input is `none`.
-/

/-- `get_relative_url` of app.py: paths under `FILES_DIR` map to
`/files/` plus the relative path; otherwise the two segments after the
first `models` marker are used; otherwise (and for absent input) the
result is `none`. -/
def get_relative_url (files_dir : List String) : Option (List String) → Option String
  | none => none
  | some parts =>
    if files_dir.isPrefixOf parts then
      let rel := parts.drop files_dir.length
      some ("/files/" ++ (if rel.isEmpty then "." else String.intercalate "/" rel))
    else
      if parts.contains "models" then
        let idx := parts.indexOf "models"
        if idx + 2 < parts.length then
          some ("/files/" ++ parts.getD (idx + 1) "" ++ "/" ++ parts.getD (idx + 2) "")
        else none
      else none

/-- Modelled from the claim wording (for comparison with the code): the
URL of any path is built from the two segments following the `models`
marker whenever at least two segments follow it, and is absent
otherwise. -/
def claimed_relative_url : Option (List String) → Option String
  | none => none
  | some parts =>
    if parts.contains "models" then
      let idx := parts.indexOf "models"
      if idx + 2 < parts.length then
        some ("/files/" ++ parts.getD (idx + 1) "" ++ "/" ++ parts.getD (idx + 2) "")
      else none
    else none

/-! ## Optimization stage (src/backend/optimize.py and the
`/optimize/{generation_id}` endpoint of app.py)

The filesystem under the models root is a pair of predicates; the
external physics calls are oracles; each completed step appends an event
carrying the pipeline-cache state at that moment.
-/

/-- Contents of the results root: which generation folders exist, and
which files each contains. -/
structure FileSys where
  folderExists : String → Bool
  fileExists : String → String → Bool

/-- Steps of `optimize_model`, recorded as they complete. -/
inductive OptEvent
  | pipelineCacheCleared
  | memorySwept
  | slatLoaded
  | factoryCreated
  | boundarySet
  | optimizerCreated
  | preOptClear
  | optimizerRan
  | glbExported
  | stressesPlotted
deriving DecidableEq

/-- Outcomes of the external calls inside `optimize_model`: SLAT payload
loading, optimizer-factory construction, the numerical optimization
itself, and GLB export / stress plotting. -/
structure OptOracle where
  slatLoadOk : Bool
  slatLoadErr : String
  createOk : Bool
  createErr : String
  numericalOk : Bool
  numericalErr : String
  exportOk : Bool
  exportErr : String

/-- `clear_cuda_memory` of optimize.py: with an accelerator present, evict
the pipeline cache (best effort) and run the garbage-collection /
cache-clear sweep; without one, do nothing. -/
def clear_cuda_memory (cuda _aggressive textMoveOk imageMoveOk : Bool) (c : PipeCache) :
    PipeCache × List (OptEvent × PipeCache) :=
  if cuda then
    let c1 := (clear_pipeline_cache cuda textMoveOk imageMoveOk c).1
    (c1, [(OptEvent.pipelineCacheCleared, c1), (OptEvent.memorySwept, c1)])
  else (c, [])

/-- The dict returned by `optimize_model`. -/
structure OptResult where
  success : Bool
  optimized_glb_path : Option (List String)
  folder : List String
  message : Option String
  error : Option String

/-- `optimize_model` of optimize.py.  Raising `FileNotFoundError` is the
`.error` constructor; the caught-exception dict is `.ok` with
`success := false`.  Returns the result, the pipeline cache, the event
trace (each event paired with the cache state when it happened) and the
filesystem after the run. -/
def optimize_model (cuda textMoveOk imageMoveOk : Bool) (o : OptOracle) (fs : FileSys)
    (files_dir : List String) (gid : String) (save_slat : Bool) (c : PipeCache) :
    Except String OptResult × PipeCache × List (OptEvent × PipeCache) × FileSys :=
  let folder := files_dir ++ [gid]
  if fs.fileExists gid "slat_00.pt" = false then
    (.error ("SLAT file not found: " ++ String.intercalate "/" (folder ++ ["slat_00.pt"])),
     c, [], fs)
  else
    let cl := clear_cuda_memory cuda true textMoveOk imageMoveOk c
    let c1 := cl.1
    let tr0 := cl.2
    if o.slatLoadOk = false then
      (.ok { success := false, optimized_glb_path := none, folder := folder,
             message := none, error := some o.slatLoadErr }, c1, tr0, fs)
    else
      let tr1 := tr0 ++ [(OptEvent.slatLoaded, c1)]
      if o.createOk = false then
        (.ok { success := false, optimized_glb_path := none, folder := folder,
               message := none, error := some o.createErr }, c1, tr1, fs)
      else
        let tr2 := tr1 ++ [(OptEvent.factoryCreated, c1), (OptEvent.boundarySet, c1),
                           (OptEvent.optimizerCreated, c1)]
                       ++ (if cuda then [(OptEvent.preOptClear, c1)] else [])
        if o.numericalOk = false then
          (.ok { success := false, optimized_glb_path := none, folder := folder,
                 message := none,
                 error := some ("Physics optimization failed: " ++ o.numericalErr) },
           c1, tr2, fs)
        else
          let tr3 := tr2 ++ [(OptEvent.optimizerRan, c1)]
          if o.exportOk = false then
            (.ok { success := false, optimized_glb_path := none, folder := folder,
                   message := none, error := some o.exportErr }, c1, tr3, fs)
          else
            let fs1 : FileSys :=
              { fs with fileExists := fun g f =>
                  if g = gid ∧ (f = "sample_optimized.glb" ∨ f = "stresses.png" ∨
                                f = "stresses_optimized.png" ∨
                                (save_slat ∧ f = "slat_optim_states.pt")) then true
                  else fs.fileExists g f }
            (.ok { success := true, optimized_glb_path := some (folder ++ ["sample_optimized.glb"]),
                   folder := folder,
                   message := some "Physics optimization completed successfully",
                   error := none },
             c1, tr3 ++ [(OptEvent.glbExported, c1), (OptEvent.stressesPlotted, c1)], fs1)

/-- The JSON body of a successful `/optimize/{generation_id}` response. -/
structure OptimizeHttpOk where
  generation_id : String
  optimized_model_url : Option String
  message : String
  stresses_url : Option (Option String)
  stresses_optimized_url : Option (Option String)
deriving DecidableEq

/-- An HTTP response of the optimize endpoint: 200 with a body, or an
`HTTPException` with a status code and detail. -/
inductive OptimizeHttpResp
  | ok (body : OptimizeHttpOk)
  | httpError (status : Nat) (detail : String)
deriving DecidableEq

/-- `optimize_3d_model` of app.py, the `/optimize/{generation_id}`
endpoint: 404 when the generation folder is absent, 400 when the SLAT
artifact is absent, 500 when the stage reports failure or the optimized
GLB is missing, 200 with URLs otherwise. -/
def optimize_3d_model (cuda textMoveOk imageMoveOk : Bool) (o : OptOracle) (fs : FileSys)
    (files_dir : List String) (gid : String) (c : PipeCache) :
    OptimizeHttpResp × PipeCache × List (OptEvent × PipeCache) :=
  if fs.folderExists gid = false then
    (.httpError 404 ("Generation folder not found: " ++ gid), c, [])
  else if fs.fileExists gid "slat_00.pt" = false then
    (.httpError 400 "SLAT file not found. Optimization requires a SLAT file (slat_00.pt) in the generation folder.",
     c, [])
  else
    match optimize_model cuda textMoveOk imageMoveOk o fs files_dir gid false c with
    | (.error e, c1, tr, _) => (.httpError 500 ("Optimization failed: " ++ e), c1, tr)
    | (.ok r, c1, tr, fs1) =>
      if r.success = false then
        (.httpError 500 ("Optimization failed: " ++ r.error.getD "Unknown error occurred"),
         c1, tr)
      else
        match r.optimized_glb_path with
        | none => (.httpError 500 "Optimized GLB file was not created", c1, tr)
        | some glb =>
          if fs1.fileExists gid "sample_optimized.glb" = false then
            (.httpError 500 "Optimized GLB file was not created", c1, tr)
          else
            (.ok { generation_id := gid,
                   optimized_model_url := get_relative_url files_dir (some glb),
                   message := r.message.getD "Optimization completed successfully",
                   stresses_url :=
                     if fs1.fileExists gid "stresses.png" then
                       some (get_relative_url files_dir (some (files_dir ++ [gid, "stresses.png"])))
                     else none,
                   stresses_optimized_url :=
                     if fs1.fileExists gid "stresses_optimized.png" then
                       some (get_relative_url files_dir (some (files_dir ++ [gid, "stresses_optimized.png"])))
                     else none }, c1, tr)

/-! ## Generation id selection (src/backend/app.py, lines 194-201)

`generate` derives a base id from the timestamp and then increments a
numeric suffix while the candidate folder exists.  The filesystem is the
list of existing folder names; the while loop is given fuel
`folders.length + 1`, which is proved sufficient below.
-/

/-- The candidate id tried with suffix counter `n`: the Python loop tries
`base` first and `base_n` (for n = 1, 2, ...) afterwards. -/
def candName (base : String) : Nat → String
  | 0 => base
  | n + 1 => base ++ "_" ++ Nat.repr (n + 1)

/-- The `while (FILES_DIR / generation_id).exists(): n += 1; ...` loop. -/
def pickIdLoop (folders : List String) (base : String) : Nat → Nat → Option Nat
  | 0, _ => none
  | fuel + 1, n =>
    if candName base n ∈ folders then pickIdLoop folders base fuel (n + 1)
    else some n

/-- Lines 194-201 of app.py: pick the first free id and create its output
folder (the new filesystem is the old one with the fresh folder added). -/
def chooseGenerationFolder (folders : List String) (base : String) :
    Option (String × List String) :=
  (pickIdLoop folders base (folders.length + 1) 0).map
    (fun k => (candName base k, candName base k :: folders))

/-! Injectivity of decimal rendering, needed to show the id loop always
finds a free name. -/

/-- Decimal digit value of a digit character. -/
def decChar (c : Char) : Nat := c.toNat - 48

/-- Decode a decimal digit string back to the number it denotes. -/
def decodeDigits (l : List Char) : Nat := l.foldl (fun a c => 10 * a + decChar c) 0

lemma decodeDigits_append (l : List Char) (c : Char) :
    decodeDigits (l ++ [c]) = 10 * decodeDigits l + decChar c := by
  simp [decodeDigits, List.foldl_append]

lemma decChar_digitChar : ∀ d, d < 10 → decChar (Nat.digitChar d) = d := by decide

lemma toDigitsCore_ten_append (fuel : Nat) : ∀ (n : Nat) (ds : List Char),
    Nat.toDigitsCore 10 fuel n ds = Nat.toDigitsCore 10 fuel n [] ++ ds := by
  induction fuel with
  | zero => intro n ds; simp [Nat.toDigitsCore]
  | succ f ih =>
    intro n ds
    simp only [Nat.toDigitsCore]
    by_cases h : n / 10 = 0
    · simp [h]
    · simp only [h, if_false]
      rw [ih (n / 10) (Nat.digitChar (n % 10) :: ds),
        ih (n / 10) [Nat.digitChar (n % 10)]]
      simp

lemma decode_toDigitsCore : ∀ (fuel n : Nat), n < fuel →
    decodeDigits (Nat.toDigitsCore 10 fuel n []) = n := by
  intro fuel
  induction fuel with
  | zero => intro n h; omega
  | succ f ih =>
    intro n h
    simp only [Nat.toDigitsCore]
    by_cases h0 : n / 10 = 0
    · have hlt : n < 10 := by omega
      simp only [h0, if_true]
      show decodeDigits [Nat.digitChar (n % 10)] = n
      have : decodeDigits [Nat.digitChar (n % 10)] = decChar (Nat.digitChar (n % 10)) := by
        simp [decodeDigits]
      rw [this, decChar_digitChar (n % 10) (Nat.mod_lt _ (by norm_num)),
        Nat.mod_eq_of_lt hlt]
    · have hn0 : 0 < n := by
        rcases Nat.eq_zero_or_pos n with h' | h'
        · subst h'; simp at h0
        · exact h'
      have hdiv : n / 10 < n := Nat.div_lt_self hn0 (by norm_num)
      simp only [h0, if_false]
      rw [toDigitsCore_ten_append, decodeDigits_append, ih (n / 10) (by omega),
        decChar_digitChar (n % 10) (Nat.mod_lt _ (by norm_num))]
      omega

lemma natRepr_injective : Function.Injective Nat.repr := by
  intro m n h
  have hdata : (Nat.toDigitsCore 10 (m + 1) m []) = (Nat.toDigitsCore 10 (n + 1) n []) := by
    have h' : (Nat.toDigits 10 m).asString = (Nat.toDigits 10 n).asString := h
    have := congrArg String.toList h'
    rwa [List.toList_asString, List.toList_asString] at this
  have hm := decode_toDigitsCore (m + 1) m (Nat.lt_succ_self m)
  have hn := decode_toDigitsCore (n + 1) n (Nat.lt_succ_self n)
  rw [← hm, ← hn, hdata]

lemma candName_injective (base : String) : Function.Injective (candName base) := by
  have hlen : ∀ k : Nat, (base ++ "_" ++ Nat.repr (k + 1)).length ≠ base.length := by
    intro k
    simp only [String.length_append]
    have : (1 : Nat) ≤ ("_" : String).length := by decide
    omega
  intro a b h
  match a, b with
  | 0, 0 => rfl
  | 0, n + 1 =>
    exact absurd (congrArg String.length h).symm (hlen n)
  | m + 1, 0 =>
    exact absurd (congrArg String.length h) (hlen m)
  | m + 1, n + 1 =>
    have hd := congrArg String.data h
    simp only [candName, String.data_append] at hd
    have hd2 : (Nat.repr (m + 1)).data = (Nat.repr (n + 1)).data :=
      List.append_cancel_left hd
    have : Nat.repr (m + 1) = Nat.repr (n + 1) := by
      cases hr1 : Nat.repr (m + 1)
      cases hr2 : Nat.repr (n + 1)
      simp_all
    have := natRepr_injective this
    omega

lemma pickIdLoop_none_mem (folders : List String) (base : String) :
    ∀ (fuel n : Nat), pickIdLoop folders base fuel n = none →
      ∀ j, n ≤ j → j < n + fuel → candName base j ∈ folders := by
  intro fuel
  induction fuel with
  | zero => intro n _ j h1 h2; omega
  | succ f ih =>
    intro n hnone j h1 h2
    by_cases hmem : candName base n ∈ folders
    · simp only [pickIdLoop, hmem, if_true] at hnone
      rcases Nat.eq_or_lt_of_le h1 with h' | h'
      · subst h'; exact hmem
      · exact ih (n + 1) hnone j h' (by omega)
    · simp [pickIdLoop, hmem] at hnone

lemma pickIdLoop_terminates (folders : List String) (base : String) :
    (pickIdLoop folders base (folders.length + 1) 0).isSome := by
  cases hres : pickIdLoop folders base (folders.length + 1) 0 with
  | some k => rfl
  | none =>
    exfalso
    have hmem : ∀ j, j < folders.length + 1 → candName base j ∈ folders := by
      intro j hj
      exact pickIdLoop_none_mem folders base (folders.length + 1) 0 hres j (Nat.zero_le j)
        (by omega)
    have hnodup : ((List.range (folders.length + 1)).map (candName base)).Nodup :=
      (List.nodup_range _).map (candName_injective base)
    have hsub : ((List.range (folders.length + 1)).map (candName base)).toFinset ⊆
        folders.toFinset := by
      intro x hx
      rw [List.mem_toFinset] at hx ⊢
      rcases List.mem_map.1 hx with ⟨j, hj, rfl⟩
      exact hmem j (List.mem_range.1 hj)
    have hcard1 : ((List.range (folders.length + 1)).map (candName base)).toFinset.card =
        folders.length + 1 := by
      rw [List.toFinset_card_of_nodup hnodup, List.length_map, List.length_range]
    have hcard2 := Finset.card_le_card hsub
    have hcard3 := List.toFinset_card_le folders
    omega

lemma pickIdLoop_some_spec (folders : List String) (base : String) :
    ∀ (fuel n k : Nat), pickIdLoop folders base fuel n = some k →
      n ≤ k ∧ candName base k ∉ folders ∧
        (∀ j, n ≤ j → j < k → candName base j ∈ folders) := by
  intro fuel
  induction fuel with
  | zero => intro n k h; simp [pickIdLoop] at h
  | succ f ih =>
    intro n k h
    by_cases hmem : candName base n ∈ folders
    · simp only [pickIdLoop, hmem, if_true] at h
      rcases ih (n + 1) k h with ⟨h1, h2, h3⟩
      refine ⟨by omega, h2, ?_⟩
      intro j hj1 hj2
      rcases Nat.eq_or_lt_of_le hj1 with h' | h'
      · subst h'; exact hmem
      · exact h3 j h' hj2
    · simp only [pickIdLoop, hmem, if_false, Option.some.injEq] at h
      subst h
      exact ⟨Nat.le_refl _, hmem, fun j hj1 hj2 => by omega⟩

/-- The cached instance of a kind, for stating the cache invariant. -/
def cachedInstance (k : PipeKind) (c : PipeCache) : Option Nat :=
  match k with
  | PipeKind.text => c.text_pipeline
  | PipeKind.image => c.image_pipeline

end Backend

open Backend

/-- Claim C5: for every Segmentation Session state, `clear` followed by
`query` returns exactly the same denormalized point cloud payload
(positions, colors, point count, model identity) as `query` alone — in
particular as `query` immediately after `load` — because `clear` resets
only prompts, labels and the prompt mask. -/
theorem clear_then_query_eq_query :
    (∀ st : Option SessionData,
        get_pointcloud_data (clear_prompts st) = get_pointcloud_data st) ∧
    (∀ s : SessionData, ∃ s', clear_prompts (some s) = some s' ∧
        s'.pc_xyz = s.pc_xyz ∧ s'.pc_rgb = s.pc_rgb ∧ s'.shift = s.shift ∧
        s'.scale = s.scale ∧ s'.model_id = s.model_id ∧
        s'.prompts = [] ∧ s'.labels = [] ∧ s'.prompt_mask = none) := by
  constructor
  · intro st
    cases st with
    | none => rfl
    | some s => rfl
  · intro s
    exact ⟨_, rfl, rfl, rfl, rfl, rfl, rfl, rfl, rfl, rfl⟩

/-- Claim C4: `acquire` is idempotent per pipeline kind — a second
`acquire` of the same kind without an intervening `release_all` returns
the same instance, leaves the cache unchanged, and performs no
construction or device-placement event; the returned instance is the one
held in the (single) per-kind slot. -/
theorem acquire_idempotent_per_kind (cuda : Bool) (c : PipeCache) (k : PipeKind) :
    (acquire k cuda (acquire k cuda c).2.1).1 = (acquire k cuda c).1 ∧
    (acquire k cuda (acquire k cuda c).2.1).2.1 = (acquire k cuda c).2.1 ∧
    (acquire k cuda (acquire k cuda c).2.1).2.2 = [] ∧
    cachedInstance k (acquire k cuda c).2.1 = some (acquire k cuda c).1 ∧
    (cachedInstance k c = none →
      (acquire k cuda c).2.2 =
        PipeEvent.constructed k c.next_id ::
          (if cuda then [PipeEvent.movedToCuda k c.next_id] else [])) ∧
    (∀ i, cachedInstance k c = some i →
      (acquire k cuda c).2.2 = [] ∧ (acquire k cuda c).1 = i ∧
      (acquire k cuda c).2.1 = c) := by
  cases k with
  | text =>
    cases h : c.text_pipeline with
    | some i => simp [acquire, load_text_pipeline, cachedInstance, h]
    | none => simp [acquire, load_text_pipeline, cachedInstance, h]
  | image =>
    cases h : c.image_pipeline with
    | some i => simp [acquire, load_image_pipeline, cachedInstance, h]
    | none => simp [acquire, load_image_pipeline, cachedInstance, h]

/-- Claim C4 witness: on an empty cache the first `acquire` constructs and
device-places instance 7; on a cache already holding instance 3 `acquire`
is a pure read. -/
theorem acquire_idempotent_per_kind_witness :
    (acquire PipeKind.text true ⟨none, none, 7⟩).2.2 =
      PipeEvent.constructed PipeKind.text 7 ::
        (if true then [PipeEvent.movedToCuda PipeKind.text 7] else []) ∧
    ((acquire PipeKind.text true ⟨some 3, none, 0⟩).2.2 = [] ∧
     (acquire PipeKind.text true ⟨some 3, none, 0⟩).1 = 3 ∧
     (acquire PipeKind.text true ⟨some 3, none, 0⟩).2.1 = ⟨some 3, none, 0⟩) := by
  constructor
  · exact (acquire_idempotent_per_kind true ⟨none, none, 7⟩ PipeKind.text).2.2.2.2.1 rfl
  · exact (acquire_idempotent_per_kind true ⟨some 3, none, 0⟩ PipeKind.text).2.2.2.2.2 3 rfl

/-- Claim C9: with the accelerator present, `release_all`
(`clear_pipeline_cache`) drops every cached pipeline reference even when
moving an instance off the device fails (the failure is logged as an
event and processing continues), always performs the cache-clear sweep,
and is a pure sweep when nothing is loaded. -/
theorem release_all_drops_all_instances (textMoveOk imageMoveOk : Bool) (c : PipeCache) :
    (clear_pipeline_cache true textMoveOk imageMoveOk c).1.text_pipeline = none ∧
    (clear_pipeline_cache true textMoveOk imageMoveOk c).1.image_pipeline = none ∧
    PipeEvent.cudaCacheCleared ∈ (clear_pipeline_cache true textMoveOk imageMoveOk c).2 ∧
    (∀ i, c.text_pipeline = some i → textMoveOk = false →
      PipeEvent.moveToCpuFailed PipeKind.text ∈
        (clear_pipeline_cache true textMoveOk imageMoveOk c).2) ∧
    (∀ i, c.image_pipeline = some i → imageMoveOk = false →
      PipeEvent.moveToCpuFailed PipeKind.image ∈
        (clear_pipeline_cache true textMoveOk imageMoveOk c).2) ∧
    (c.text_pipeline = none → c.image_pipeline = none →
      clear_pipeline_cache true textMoveOk imageMoveOk c = (c, [PipeEvent.cudaCacheCleared])) := by
  obtain ⟨ct, ci, cn⟩ := c
  cases ct <;> cases ci <;> cases textMoveOk <;> cases imageMoveOk <;>
    simp [clear_pipeline_cache]

/-- Claim C9 witness: a cache with both kinds loaded and a failing text
move is still fully dropped, and an empty cache yields the bare sweep. -/
theorem release_all_drops_all_instances_witness :
    ((clear_pipeline_cache true false true ⟨some 0, some 1, 2⟩).1.text_pipeline = none ∧
     (clear_pipeline_cache true false true ⟨some 0, some 1, 2⟩).1.image_pipeline = none ∧
     PipeEvent.moveToCpuFailed PipeKind.text ∈
       (clear_pipeline_cache true false true ⟨some 0, some 1, 2⟩).2) ∧
    clear_pipeline_cache true true true ⟨none, none, 0⟩ =
      (⟨none, none, 0⟩, [PipeEvent.cudaCacheCleared]) := by
  refine ⟨⟨?_, ?_, ?_⟩, ?_⟩
  · exact (release_all_drops_all_instances false true ⟨some 0, some 1, 2⟩).1
  · exact (release_all_drops_all_instances false true ⟨some 0, some 1, 2⟩).2.1
  · exact (release_all_drops_all_instances false true ⟨some 0, some 1, 2⟩).2.2.2.1 0 rfl rfl
  · exact (release_all_drops_all_instances true true ⟨none, none, 0⟩).2.2.2.2.2 rfl rfl

/-- Claim C1 counterexample: a session whose `prompt_mask` is `[1]`
receives a click whose best predicted mask is `[-1]` (zero positive
points, so the click is rejected as too small); after the rejected click
the `prompt_mask` is `[-1]`, not the `[1]` held before it — the rejected
click does mutate `prompt_mask`. -/
theorem click_too_small_mutates_mask_cex :
    (segment_with_click true (fun _ => [([-1], (9 : ℚ) / 10)])
        (some { pc_xyz := [⟨0, 0, 0⟩], pc_rgb := [⟨1, 1, 1⟩], shift := ⟨0, 0, 0⟩,
                scale := 1, model_id := "m", glb_path := "g", prompts := [],
                labels := [], prompt_mask := some [1] })
        { pos := some ⟨0, 0, 0⟩, prompt_label := none }).2 =
      Except.error "Segment too small: only 0 points" ∧
    Option.map SessionData.prompt_mask
      (segment_with_click true (fun _ => [([-1], (9 : ℚ) / 10)])
        (some { pc_xyz := [⟨0, 0, 0⟩], pc_rgb := [⟨1, 1, 1⟩], shift := ⟨0, 0, 0⟩,
                scale := 1, model_id := "m", glb_path := "g", prompts := [],
                labels := [], prompt_mask := some [1] })
        { pos := some ⟨0, 0, 0⟩, prompt_label := none }).1 = some (some [-1]) ∧
    (some (some [-1]) : Option (Option (List ℚ))) ≠ some (some [1]) := by
  refine ⟨?_, ?_, by decide⟩ <;> rfl

/-- Claim C1 as amended: a click whose best predicted mask selects at most
10 points fails with the recoverable "too small" error, but the session's
`prompt_mask` IS replaced by that newly predicted mask before the
rejection is detected (the prompt point and label are also appended), so
a subsequent click uses the rejected click's mask — not the mask from
before the rejection — as its refinement seed. -/
theorem click_too_small_updates_mask (model : PredictFn) (s : SessionData)
    (c : ClickPoint) (p : List ℚ × ℚ) (rest : List (List ℚ × ℚ))
    (hpred : model (predictInputOf (appendClick s c)) = p :: rest)
    (hsmall : (positiveIndices (bestPred p rest).1).length ≤ 10) :
    (segment_with_click true model (some s) c).2 =
      Except.error ("Segment too small: only " ++
        Nat.repr (positiveIndices (bestPred p rest).1).length ++ " points") ∧
    (segment_with_click true model (some s) c).1 =
      some { appendClick s c with prompt_mask := some (bestPred p rest).1 } ∧
    (∀ c', (predictInputOf
        (appendClick { appendClick s c with prompt_mask := some (bestPred p rest).1 } c')).prompt_mask =
      some (bestPred p rest).1) := by
  refine ⟨?_, ?_, ?_⟩
  · simp [segment_with_click, hpred, hsmall]
  · simp [segment_with_click, hpred, hsmall]
  · intro c'
    simp [predictInputOf, appendClick]

/-- Claim C1 witness: the amended theorem evaluated at the concrete
rejected click of the counterexample scenario. -/
theorem click_too_small_updates_mask_witness :
    (segment_with_click true (fun _ => [([-1], (9 : ℚ) / 10)])
        (some { pc_xyz := [⟨0, 0, 0⟩], pc_rgb := [⟨1, 1, 1⟩], shift := ⟨0, 0, 0⟩,
                scale := 1, model_id := "m", glb_path := "g", prompts := [],
                labels := [], prompt_mask := some [1] })
        { pos := some ⟨0, 0, 0⟩, prompt_label := none }).2 =
      Except.error ("Segment too small: only " ++
        Nat.repr (positiveIndices (bestPred ([-1], (9 : ℚ) / 10) []).1).length ++ " points") :=
  (click_too_small_updates_mask (fun _ => [([-1], (9 : ℚ) / 10)])
    { pc_xyz := [⟨0, 0, 0⟩], pc_rgb := [⟨1, 1, 1⟩], shift := ⟨0, 0, 0⟩,
      scale := 1, model_id := "m", glb_path := "g", prompts := [],
      labels := [], prompt_mask := some [1] }
    { pos := some ⟨0, 0, 0⟩, prompt_label := none }
    ([-1], (9 : ℚ) / 10) [] rfl (by decide)).1

/-- Claim C7 counterexample: for a path under the configured models root
with three segments after the `models` marker, the code returns the full
relative URL `/files/a/b/c`, while the claim prescribes only the two
segments after the marker, `/files/a/b`. -/
theorem get_relative_url_cex :
    get_relative_url ["srv", "results", "models"]
        (some ["srv", "results", "models", "a", "b", "c"]) = some "/files/a/b/c" ∧
    claimed_relative_url (some ["srv", "results", "models", "a", "b", "c"]) =
      some "/files/a/b" ∧
    get_relative_url ["srv", "results", "models"]
        (some ["srv", "results", "models", "a", "b", "c"]) ≠
      claimed_relative_url (some ["srv", "results", "models", "a", "b", "c"]) := by
  refine ⟨by decide, by decide, by decide⟩

/-- Claim C7 as amended: the URL mapping is a pure total function that
returns null for absent input; for a path under the configured models
root it returns `/files/` followed by the full path relative to that
root (however many segments); for any other path it follows the claimed
rule exactly — `/files/{folder}/{filename}` from the two segments after
the first `models` marker when at least two segments follow it, null
otherwise. -/
theorem get_relative_url_amended (files_dir parts : List String) :
    get_relative_url files_dir none = none ∧
    (files_dir.isPrefixOf parts = true →
      get_relative_url files_dir (some parts) =
        some ("/files/" ++ (if (parts.drop files_dir.length).isEmpty then "."
          else String.intercalate "/" (parts.drop files_dir.length)))) ∧
    (files_dir.isPrefixOf parts = false →
      get_relative_url files_dir (some parts) = claimed_relative_url (some parts)) := by
  refine ⟨rfl, ?_, ?_⟩
  · intro h
    simp [get_relative_url, h]
  · intro h
    simp [get_relative_url, claimed_relative_url, h]

/-- Claim C7 witness: the amended theorem evaluated on a path under the
root and on an unrelated path carrying the `models` marker. -/
theorem get_relative_url_amended_witness :
    get_relative_url ["srv", "results", "models"]
        (some ["srv", "results", "models", "abc123", "sample_00.glb"]) =
      some ("/files/" ++ (if ((["srv", "results", "models", "abc123", "sample_00.glb"] : List String).drop 3).isEmpty
        then "." else String.intercalate "/"
          ((["srv", "results", "models", "abc123", "sample_00.glb"] : List String).drop 3))) ∧
    get_relative_url ["srv", "results", "models"]
        (some ["tmp", "models", "abc123", "sample_00.glb"]) =
      claimed_relative_url (some ["tmp", "models", "abc123", "sample_00.glb"]) := by
  constructor
  · exact (get_relative_url_amended ["srv", "results", "models"]
      ["srv", "results", "models", "abc123", "sample_00.glb"]).2.1 (by decide)
  · exact (get_relative_url_amended ["srv", "results", "models"]
      ["tmp", "models", "abc123", "sample_00.glb"]).2.2 (by decide)

/-- Every click on a loaded session appends exactly one prompt point and
one label, whatever the prediction outcome or the too-small rejection. -/
lemma click_appends_one (avail : Bool) (model : PredictFn) (s : SessionData)
    (c : ClickPoint) (h : avail = true) :
    ∃ s', (segment_with_click avail model (some s) c).1 = some s' ∧
      s'.prompts = s.prompts ++ [promptPointOf s c] ∧
      s'.labels = s.labels ++ [c.prompt_label.getD 1] := by
  subst h
  unfold segment_with_click
  simp only [Bool.true_eq_false, if_false]
  cases hm : model (predictInputOf (appendClick s c)) with
  | nil => exact ⟨_, rfl, rfl, rfl⟩
  | cons p rest =>
    refine ⟨{ appendClick s c with prompt_mask := some (bestPred p rest).1 }, ?_, ?_, ?_⟩
    · by_cases hlen : (positiveIndices (bestPred p rest).1).length ≤ 10 <;>
        simp [hm, hlen]
    · simp [appendClick]
    · simp [appendClick]

/-- In every reachable session state the prompts and labels lists have
the same length. -/
lemma reachable_prompts_labels_aligned (avail : Bool) :
    ∀ st, Reachable avail st → ∀ s, st = some s →
      s.prompts.length = s.labels.length := by
  intro st h
  induction h with
  | init => intro s hs; exact absurd hs (by simp)
  | load st model_dir findGlb loadGlb _ ih =>
    intro s hs
    unfold load_model_for_segmentation at hs
    split at hs
    · exact ih s hs
    · split at hs
      · exact ih s hs
      · split at hs
        · exact ih s hs
        · simp only [Option.some.injEq] at hs
          subst hs
          rfl
  | clear st _ ih =>
    intro s hs
    cases st with
    | none => exact absurd hs (by simp [clear_prompts])
    | some s0 =>
      have := ih s0 rfl
      simp only [clear_prompts, Option.some.injEq] at hs
      subst hs
      rfl
  | click st model c hr ih =>
    intro s hs
    by_cases ha : avail = true
    · cases st with
      | none =>
        subst ha
        simp [segment_with_click] at hs
      | some s0 =>
        obtain ⟨s', hs', hp, hl⟩ := click_appends_one avail model s0 c ha
        rw [hs'] at hs
        simp only [Option.some.injEq] at hs
        subst hs
        rw [hp, hl]
        simp [ih s0 rfl]
    · have ha' : avail = false := by
        cases avail
        · rfl
        · exact absurd rfl ha
      subst ha'
      simp only [segment_with_click, if_pos rfl] at hs
      exact ih s hs

/-- Claim C10: in every reachable Segmentation Session state the prompts
list and the labels list have equal length — load and clear reset both to
empty, and every click appends exactly one prompt point and one label
(the label defaulting to positive when omitted), even when the click is
rejected as too small. -/
theorem session_prompts_labels_invariant :
    (∀ (avail : Bool) (s : SessionData), Reachable avail (some s) →
      s.prompts.length = s.labels.length) ∧
    (∀ (model : PredictFn) (s : SessionData) (c : ClickPoint),
      ∃ s', (segment_with_click true model (some s) c).1 = some s' ∧
        s'.prompts = s.prompts ++ [promptPointOf s c] ∧
        s'.labels = s.labels ++ [c.prompt_label.getD 1]) ∧
    (∀ p : Option Vec3, (ClickPoint.mk p none).prompt_label.getD 1 = 1) := by
  refine ⟨?_, ?_, ?_⟩
  · intro avail s h
    exact reachable_prompts_labels_aligned avail (some s) h s rfl
  · intro model s c
    exact click_appends_one true model s c rfl
  · intro p
    rfl

/-- Claim C10 witness: the invariant holds on the concrete state reached
by loading a one-point model and clicking it once. -/
theorem session_prompts_labels_invariant_witness :
    ∃ s : SessionData,
      (segment_with_click true (fun _ => [([1], (1 : ℚ))])
        (load_model_for_segmentation true "m" (some "g")
          (fun _ => some ⟨[⟨0, 0, 0⟩], [⟨1, 1, 1⟩], ⟨0, 0, 0⟩, 1⟩) none).1
        { pos := none, prompt_label := none }).1 = some s ∧
      s.prompts.length = s.labels.length := by
  have hreach : Reachable true
      ((segment_with_click true (fun _ => [([1], (1 : ℚ))])
        (load_model_for_segmentation true "m" (some "g")
          (fun _ => some ⟨[⟨0, 0, 0⟩], [⟨1, 1, 1⟩], ⟨0, 0, 0⟩, 1⟩) none).1
        { pos := none, prompt_label := none }).1) :=
    Reachable.click _ _ _ (Reachable.load none "m" (some "g")
      (fun _ => some ⟨[⟨0, 0, 0⟩], [⟨1, 1, 1⟩], ⟨0, 0, 0⟩, 1⟩) Reachable.init)
  cases hres : (segment_with_click true (fun _ => [([1], (1 : ℚ))])
      (load_model_for_segmentation true "m" (some "g")
        (fun _ => some ⟨[⟨0, 0, 0⟩], [⟨1, 1, 1⟩], ⟨0, 0, 0⟩, 1⟩) none).1
      { pos := none, prompt_label := none }).1 with
  | none => exact absurd hres (by decide)
  | some s =>
    refine ⟨s, rfl, ?_⟩
    rw [hres] at hreach
    exact session_prompts_labels_invariant.1 true s hreach

/-- Claim C3: for every set of existing output folders and every
timestamp-derived base id, the id-selection loop terminates on a fresh id
— the first candidate in the suffix order `base, base_1, base_2, ...`
whose folder does not exist (every earlier candidate collides) — and the
fresh folder is then added to the filesystem for the run. -/
theorem generation_id_fresh (folders : List String) (base : String) :
    ∃ k, pickIdLoop folders base (folders.length + 1) 0 = some k ∧
      chooseGenerationFolder folders base =
        some (candName base k, candName base k :: folders) ∧
      candName base k ∉ folders ∧
      (∀ j, j < k → candName base j ∈ folders) ∧
      candName base k ∈ candName base k :: folders := by
  have hterm := pickIdLoop_terminates folders base
  cases hres : pickIdLoop folders base (folders.length + 1) 0 with
  | none => rw [hres] at hterm; exact absurd hterm (by simp)
  | some k =>
    obtain ⟨-, hfree, hbusy⟩ := pickIdLoop_some_spec folders base _ 0 k hres
    refine ⟨k, rfl, ?_, hfree, ?_, List.mem_cons_self _ _⟩
    · simp [chooseGenerationFolder, hres]
    · intro j hj
      exact hbusy j (Nat.zero_le j) hj

/-- Claim C6: when the pipeline run succeeds but GLB export fails for the
first sample, the Generation Stage still reports success and still
returns the OBJ, PLY and SLAT artifacts of that sample; the GLB artifact
is simply absent from the bundle. -/
theorem glb_export_failure_nonfatal (cuda : Bool) (cache : PipeCache) (g : GenOracle)
    (image_path output_folder : String) (seed : Int) (num_samples : Nat)
    (save_video : Bool) (hrun : g.pipelineRunOk = true) (hn : 0 < num_samples)
    (hglb : g.glbExportOk 0 = false) :
    (generate_3d_from_image cuda cache g image_path output_folder seed num_samples
        save_video).1.success = true ∧
    (generate_3d_from_image cuda cache g image_path output_folder seed num_samples
        save_video).1.glb_path = none ∧
    (generate_3d_from_image cuda cache g image_path output_folder seed num_samples
        save_video).1.obj_path = some (output_folder ++ "/sample_00.obj") ∧
    (generate_3d_from_image cuda cache g image_path output_folder seed num_samples
        save_video).1.ply_path = some (output_folder ++ "/sample_00.ply") ∧
    (generate_3d_from_image cuda cache g image_path output_folder seed num_samples
        save_video).1.slat_path = some (output_folder ++ "/slat_00.pt") := by
  obtain ⟨m, rfl⟩ : ∃ m, num_samples = m + 1 := ⟨num_samples - 1, by omega⟩
  have hf : fmtSampleIdx 0 = "00" := rfl
  have hkey : ("sample_" ++ "00" : String) = "sample_00" := rfl
  have hobj : ∀ s : String, ((s ++ "/sample_") ++ "00") ++ ".obj" = s ++ "/sample_00.obj" := by
    intro s
    rw [String.append_assoc, String.append_assoc]
    rfl
  have hply : ∀ s : String, ((s ++ "/sample_") ++ "00") ++ ".ply" = s ++ "/sample_00.ply" := by
    intro s
    rw [String.append_assoc, String.append_assoc]
    rfl
  have hslat : ∀ s : String, ((s ++ "/slat_") ++ "00") ++ ".pt" = s ++ "/slat_00.pt" := by
    intro s
    rw [String.append_assoc, String.append_assoc]
    rfl
  cases save_video <;>
    simp [generate_3d_from_image, sample, hrun, List.range_succ_eq_map,
      List.lookup, sampleFiles, hglb, hf, hkey, hobj, hply, hslat]

/-- Claim C6 witness: concrete one-sample run with GLB export failing. -/
theorem glb_export_failure_nonfatal_witness :
    (generate_3d_from_image true ⟨none, none, 0⟩
        ⟨true, "", fun _ => false⟩ "a.png" "out" 1 1 false).1.success = true ∧
    (generate_3d_from_image true ⟨none, none, 0⟩
        ⟨true, "", fun _ => false⟩ "a.png" "out" 1 1 false).1.glb_path = none ∧
    (generate_3d_from_image true ⟨none, none, 0⟩
        ⟨true, "", fun _ => false⟩ "a.png" "out" 1 1 false).1.obj_path =
      some ("out" ++ "/sample_00.obj") ∧
    (generate_3d_from_image true ⟨none, none, 0⟩
        ⟨true, "", fun _ => false⟩ "a.png" "out" 1 1 false).1.ply_path =
      some ("out" ++ "/sample_00.ply") ∧
    (generate_3d_from_image true ⟨none, none, 0⟩
        ⟨true, "", fun _ => false⟩ "a.png" "out" 1 1 false).1.slat_path =
      some ("out" ++ "/slat_00.pt") :=
  glb_export_failure_nonfatal true ⟨none, none, 0⟩ ⟨true, "", fun _ => false⟩
    "a.png" "out" 1 1 false rfl (by decide) rfl

/-- Evicting the cache always empties both pipeline slots. -/
lemma clear_pipeline_cache_empties (tOk iOk : Bool) (c : PipeCache) :
    (clear_pipeline_cache true tOk iOk c).1 =
      { text_pipeline := none, image_pipeline := none, next_id := c.next_id } := by
  obtain ⟨ct, ci, cn⟩ := c
  simp [clear_pipeline_cache]

/-- `clear_cuda_memory` with an accelerator: the cache is emptied and the
eviction and sweep events are recorded against the emptied cache. -/
lemma clear_cuda_memory_spec (ag tOk iOk : Bool) (c : PipeCache) :
    clear_cuda_memory true ag tOk iOk c =
      ({ text_pipeline := none, image_pipeline := none, next_id := c.next_id },
       [(OptEvent.pipelineCacheCleared,
         { text_pipeline := none, image_pipeline := none, next_id := c.next_id }),
        (OptEvent.memorySwept,
         { text_pipeline := none, image_pipeline := none, next_id := c.next_id })]) := by
  simp [clear_cuda_memory, clear_pipeline_cache_empties]

/-- Claim C2: `optimize` fails 404 (folder absent) or 400 (SLAT artifact
absent) without ever invoking the physics optimizer (the event trace is
empty), and numerical failure during optimization is reported as a
distinct 500 stage failure. -/
theorem optimize_endpoint_preconditions (cuda textMoveOk imageMoveOk : Bool)
    (o : OptOracle) (fs : FileSys) (files_dir : List String) (gid : String)
    (c : PipeCache) :
    (fs.folderExists gid = false →
      (optimize_3d_model cuda textMoveOk imageMoveOk o fs files_dir gid c).1 =
        OptimizeHttpResp.httpError 404 ("Generation folder not found: " ++ gid) ∧
      (optimize_3d_model cuda textMoveOk imageMoveOk o fs files_dir gid c).2.2 = []) ∧
    (fs.folderExists gid = true → fs.fileExists gid "slat_00.pt" = false →
      (optimize_3d_model cuda textMoveOk imageMoveOk o fs files_dir gid c).1 =
        OptimizeHttpResp.httpError 400
          "SLAT file not found. Optimization requires a SLAT file (slat_00.pt) in the generation folder." ∧
      (optimize_3d_model cuda textMoveOk imageMoveOk o fs files_dir gid c).2.2 = []) ∧
    (fs.folderExists gid = true → fs.fileExists gid "slat_00.pt" = true →
      o.slatLoadOk = true → o.createOk = true → o.numericalOk = false →
      (optimize_3d_model cuda textMoveOk imageMoveOk o fs files_dir gid c).1 =
        OptimizeHttpResp.httpError 500
          ("Optimization failed: " ++ ("Physics optimization failed: " ++ o.numericalErr))) := by
  refine ⟨?_, ?_, ?_⟩
  · intro hfold
    constructor <;> simp [optimize_3d_model, hfold]
  · intro hfold hslat
    constructor <;> simp [optimize_3d_model, hfold, hslat]
  · intro hfold hslat hload hcreate hnum
    simp [optimize_3d_model, optimize_model, hfold, hslat, hload, hcreate, hnum]

/-- Claim C2 witness: the three branches at concrete filesystems and
oracles — missing folder, missing SLAT, and a numerically failing run. -/
theorem optimize_endpoint_preconditions_witness :
    ((optimize_3d_model true true true ⟨true, "", true, "", false, "diverged", true, ""⟩
        ⟨fun _ => false, fun _ _ => false⟩ ["results", "models"] "gen1" ⟨none, none, 0⟩).1 =
      OptimizeHttpResp.httpError 404 ("Generation folder not found: " ++ "gen1") ∧
     (optimize_3d_model true true true ⟨true, "", true, "", false, "diverged", true, ""⟩
        ⟨fun _ => false, fun _ _ => false⟩ ["results", "models"] "gen1" ⟨none, none, 0⟩).2.2 = []) ∧
    ((optimize_3d_model true true true ⟨true, "", true, "", false, "diverged", true, ""⟩
        ⟨fun _ => true, fun _ _ => false⟩ ["results", "models"] "gen1" ⟨none, none, 0⟩).1 =
      OptimizeHttpResp.httpError 400
        "SLAT file not found. Optimization requires a SLAT file (slat_00.pt) in the generation folder." ∧
     (optimize_3d_model true true true ⟨true, "", true, "", false, "diverged", true, ""⟩
        ⟨fun _ => true, fun _ _ => false⟩ ["results", "models"] "gen1" ⟨none, none, 0⟩).2.2 = []) ∧
    (optimize_3d_model true true true ⟨true, "", true, "", false, "diverged", true, ""⟩
        ⟨fun _ => true, fun _ _ => true⟩ ["results", "models"] "gen1" ⟨none, none, 0⟩).1 =
      OptimizeHttpResp.httpError 500
        ("Optimization failed: " ++ ("Physics optimization failed: " ++ "diverged")) := by
  refine ⟨?_, ?_, ?_⟩
  · exact (optimize_endpoint_preconditions true true true
      ⟨true, "", true, "", false, "diverged", true, ""⟩
      ⟨fun _ => false, fun _ _ => false⟩ ["results", "models"] "gen1" ⟨none, none, 0⟩).1 rfl
  · exact (optimize_endpoint_preconditions true true true
      ⟨true, "", true, "", false, "diverged", true, ""⟩
      ⟨fun _ => true, fun _ _ => false⟩ ["results", "models"] "gen1" ⟨none, none, 0⟩).2.1 rfl rfl
  · exact (optimize_endpoint_preconditions true true true
      ⟨true, "", true, "", false, "diverged", true, ""⟩
      ⟨fun _ => true, fun _ _ => true⟩ ["results", "models"] "gen1" ⟨none, none, 0⟩).2.2
      rfl rfl rfl rfl rfl

/-- The event trace of an optimization run (accelerator present). -/
def optRunTrace (textMoveOk imageMoveOk : Bool) (o : OptOracle) (fs : FileSys)
    (files_dir : List String) (gid : String) (save_slat : Bool) (c : PipeCache) :
    List (OptEvent × PipeCache) :=
  (optimize_model true textMoveOk imageMoveOk o fs files_dir gid save_slat c).2.2.1

/-- Claim C8: in every optimization run (with the SLAT artifact present,
accelerator available), pipeline-cache eviction and the garbage-collection
sweep are the first two events of the run — they complete before the
sparse-latent bundle is loaded — and every SLAT-load, optimizer-creation
and optimizer-run event happens against a pipeline cache holding no
instance of either kind. -/
theorem optimizer_runs_only_after_eviction (textMoveOk imageMoveOk : Bool)
    (o : OptOracle) (fs : FileSys) (files_dir : List String) (gid : String)
    (save_slat : Bool) (c : PipeCache)
    (hslat : fs.fileExists gid "slat_00.pt" = true) :
    (∃ rest, (optRunTrace textMoveOk imageMoveOk o fs files_dir gid save_slat c).map Prod.fst =
        OptEvent.pipelineCacheCleared :: OptEvent.memorySwept :: rest) ∧
    (∀ cc : PipeCache,
      ((OptEvent.slatLoaded, cc) ∈ optRunTrace textMoveOk imageMoveOk o fs files_dir gid save_slat c ∨
       (OptEvent.optimizerCreated, cc) ∈ optRunTrace textMoveOk imageMoveOk o fs files_dir gid save_slat c ∨
       (OptEvent.optimizerRan, cc) ∈ optRunTrace textMoveOk imageMoveOk o fs files_dir gid save_slat c) →
      cc.text_pipeline = none ∧ cc.image_pipeline = none) := by
  obtain ⟨lo, le, co, ce, nu, ne, eo, ee⟩ := o
  unfold optRunTrace optimize_model
  rw [clear_cuda_memory_spec]
  cases lo <;> cases co <;> cases nu <;> cases eo <;> constructor <;> simp_all

/-- Claim C8 witness: a fully successful run on a cache still holding a
text pipeline begins with the eviction and sweep events. -/
theorem optimizer_runs_only_after_eviction_witness :
    ((optRunTrace true true ⟨true, "", true, "", true, "", true, ""⟩
        ⟨fun _ => true, fun _ _ => true⟩ ["results", "models"] "g" false
        ⟨some 5, none, 6⟩).map Prod.fst).take 2 =
      [OptEvent.pipelineCacheCleared, OptEvent.memorySwept] := by
  obtain ⟨rest, h⟩ := (optimizer_runs_only_after_eviction true true
    ⟨true, "", true, "", true, "", true, ""⟩ ⟨fun _ => true, fun _ _ => true⟩
    ["results", "models"] "g" false ⟨some 5, none, 6⟩ rfl).1
  rw [h]
  rfl
